import Mathlib

set_option autoImplicit false

/-!
Shallow embedding of the `storage` resource
`azurerm_storage_account_encryption_settings`
(`resourceArmStorageAccountEncryptionSettings` and its CRUD/import
functions) together with the helpers
`expandAzureRmStorageAccountKeyVaultProperties` and
`flattenAzureRmStorageAccountKeyVaultProperties`.

External collaborators (the Azure resource-id decoder, the key-vault
base-URL resolver, and the storage-account management client) are not part
of the translated code; they enter as oracle functions in an `Env` record,
and every remote call an operation issues is recorded in an explicit trace.
-/

/-- Go `*string`, modelled with its allocation address: `none` is `nil`,
`some (a, s)` is a pointer with address `a` to a cell holding `s`.  Go
compares two `*string` values by address, never by the pointed-to value;
the address component makes the pointer comparison at line 118 of the
source (`keyVaultProperties.KeyName != utils.String("")`) representable. -/
abbrev GoStr := Option (Nat × String)

/-- Go pointer equality on `*string`: equal iff both `nil` or both point to
the same address. -/
def goStrPtrEq : GoStr → GoStr → Bool
  | none, none => true
  | some p, some q => p.1 == q.1
  | _, _ => false

/-- One element of the `key_vault` schema list (schema lines 41-78).
`key_vault_uri` is the computed attribute. -/
structure KeyVaultBlock where
  key_vault_policy_id : String
  key_vault_id : String
  key_name : String
  key_version : String
  key_vault_uri : String
deriving Repr, DecidableEq

/-- The relevant fields of the terraform `*schema.ResourceData` record:
the two schema attributes plus the resource id (`d.Id()` / `d.SetId`).
The schema models `key_vault` as a list with at most one element. -/
structure ResourceData where
  storage_account_id : String
  key_vault : List KeyVaultBlock
  rid : String
deriving Repr, DecidableEq

/-- SDK `storage.KeySource` values used by the source. -/
inductive KeySource where
  /-- `storage.MicrosoftStorage`: platform-managed keys. -/
  | MicrosoftStorage
  /-- `storage.MicrosoftKeyvault`: key-vault-managed keys. -/
  | MicrosoftKeyvault
deriving Repr, DecidableEq

/-- SDK `storage.EncryptionService`. -/
structure EncryptionService where
  Enabled : Bool
deriving Repr, DecidableEq

/-- SDK `storage.EncryptionServices`; `Blob` and `File` are pointers. -/
structure EncryptionServices where
  Blob : Option EncryptionService
  File : Option EncryptionService
deriving Repr, DecidableEq

/-- SDK `storage.KeyVaultProperties`; all three fields are `*string`. -/
structure KeyVaultProperties where
  KeyName : GoStr
  KeyVersion : GoStr
  KeyVaultURI : GoStr
deriving Repr, DecidableEq

/-- SDK `storage.Encryption`; `Services` and `KeyVaultProperties` are
pointers. -/
structure Encryption where
  Services : Option EncryptionServices
  KeySource : KeySource
  KeyVaultProperties : Option KeyVaultProperties
deriving Repr, DecidableEq

/-- SDK `storage.AccountUpdateParameters`.  The Go struct reaches
`Encryption` through an embedded `*AccountPropertiesUpdateParameters`
pointer that both construction sites of the source populate; the embedding
keeps the one field the source uses. -/
structure AccountUpdateParameters where
  Encryption : Option Encryption
deriving Repr, DecidableEq

/-- SDK `storage.AccountProperties` as consumed by the read/import paths:
only the `Encryption` pointer is inspected. -/
structure AccountProperties where
  Encryption : Option Encryption
deriving Repr, DecidableEq

/-- The two fields of `azure.ResourceID` the source consumes:
`id.ResourceGroup` and `id.Path["storageAccounts"]` (a Go map lookup that
yields `""` when the segment is absent). -/
structure ResourceID where
  resourceGroup : String
  storageAccounts : String
deriving Repr, DecidableEq

/-- Outcome of `storageClient.GetProperties` combined with the
`utils.ResponseWasNotFound` test the source applies to its error. -/
inductive RemoteReadResult where
  /-- call succeeded; `props` is `resp.AccountProperties` (a pointer). -/
  | ok (props : Option AccountProperties)
  /-- call failed and the response was a 404. -/
  | notFound
  /-- call failed with any other error. -/
  | err (message : String)
deriving Repr, DecidableEq

/-- A remote call issued by an operation, in issue order.  `deleteAccount`
is the management client's account-deletion endpoint; the source never
invokes it, which is the content of claim C3's last clause. -/
inductive RemoteCall where
  | update (resourceGroup accountName : String) (parameters : AccountUpdateParameters)
  | getProperties (resourceGroup accountName : String)
  | vaultUriLookup (keyVaultId : String)
  | deleteAccount (resourceGroup accountName : String)
deriving Repr, DecidableEq

/-- The external collaborators: `azure.ParseAzureResourceID`,
`azure.GetKeyVaultBaseUrlFromID`, `storageClient.Update` and
`storageClient.GetProperties`. -/
structure Env where
  parse : String → Except String ResourceID
  getKeyVaultBaseUrlFromID : String → Except String String
  update : String → String → AccountUpdateParameters → Except String Unit
  getProperties : String → String → RemoteReadResult

/-- Result of one operation: the Go return value, the final state of the
`ResourceData` record, and the trace of remote calls issued. -/
structure OpResult (α : Type) where
  result : Except String α
  final : ResourceData
  trace : List RemoteCall
deriving Repr

/-- Source lines 272-286.  `alloc` is the next free allocation address;
`utils.String` allocates a fresh cell, so the two produced pointers get
fresh addresses.  Returns the properties record and the next free
address. -/
def expandAzureRmStorageAccountKeyVaultProperties (d : ResourceData) (alloc : Nat) :
    KeyVaultProperties × Nat :=
  match d.key_vault with
  | [] => (⟨none, none, none⟩, alloc)
  | v :: _ =>
      (⟨some (alloc, v.key_name), some (alloc + 1, v.key_version), none⟩, alloc + 2)

/-- Source lines 288-313.  The Go code inserts each key into the result
map only when its source string is non-empty (for the two carried-forward
ids) or its pointer non-nil (for the three remote fields); a key absent
from the map reads back as the zero value `""` in the declared state, so
each field below is written unconditionally with `""` standing for an
omitted key. -/
def flattenAzureRmStorageAccountKeyVaultProperties
    (keyVaultProperties : Option KeyVaultProperties)
    (keyVaultId keyVaultPolicyId : String) : List KeyVaultBlock :=
  match keyVaultProperties with
  | none => []
  | some kvp =>
      [{ key_vault_policy_id := keyVaultPolicyId,
         key_vault_id := keyVaultId,
         key_name := (kvp.KeyName.map Prod.snd).getD "",
         key_version := (kvp.KeyVersion.map Prod.snd).getD "",
         key_vault_uri := (kvp.KeyVaultURI.map Prod.snd).getD "" }]

/-- `d.GetOk("key_vault.0.key_vault_id")` (source line 119): yields the
value with `ok = true` exactly when the element exists and the string is
non-zero. -/
def getOkKeyVaultId (d : ResourceData) : Option String :=
  match d.key_vault with
  | [] => none
  | v :: _ => if v.key_vault_id = "" then none else some v.key_vault_id

/-- `d.Get("key_vault.0.key_vault_id")` (source line 180): `""` when the
list is empty. -/
def getKeyVaultId (d : ResourceData) : String :=
  match d.key_vault with
  | [] => ""
  | v :: _ => v.key_vault_id

/-- `d.Get("key_vault.0.key_vault_policy_id")` (source line 181). -/
def getKeyVaultPolicyId (d : ResourceData) : String :=
  match d.key_vault with
  | [] => ""
  | v :: _ => v.key_vault_policy_id

/-- `d.Get("key_vault.0.key_name")`: `""` when the list is empty. -/
def getKeyName (d : ResourceData) : String :=
  match d.key_vault with
  | [] => ""
  | v :: _ => v.key_name

/-- Source lines 102-116: the baseline update object, blob and file
encryption enabled, platform-managed key source, empty (but non-nil)
key-vault-properties. -/
def defaultUpdateOpts : AccountUpdateParameters :=
  { Encryption := some
      { Services := some { Blob := some ⟨true⟩, File := some ⟨true⟩ },
        KeySource := .MicrosoftStorage,
        KeyVaultProperties := some ⟨none, none, none⟩ } }

/-- Source lines 128-130: mutate the baseline opts in place: overlay the
expanded key-vault properties with the freshly resolved (and freshly
allocated) `KeyVaultURI` and switch the key source to key-vault-managed;
the `Services` of the baseline are untouched. -/
def keyVaultOverlayOpts (d : ResourceData) (pKeyVaultBaseUrl : String) :
    AccountUpdateParameters :=
  let p := expandAzureRmStorageAccountKeyVaultProperties d 0
  { Encryption := some
      { Services := some { Blob := some ⟨true⟩, File := some ⟨true⟩ },
        KeySource := .MicrosoftKeyvault,
        KeyVaultProperties := some
          { p.1 with KeyVaultURI := some (p.2 + 1, pKeyVaultBaseUrl) } } }

/-- Source lines 101-132: the payload construction of the create-or-update
path.  Fresh allocation addresses start at 0 for this invocation; the
comparison at line 118 is `KeyName != utils.String("")`, a pointer
inequality against a freshly allocated cell (address `p.2`), so the
overlay branch is entered whenever the pointers differ.  Returns the
payload (or the vault-lookup error of line 125) and the remote calls
issued while building it. -/
def buildUpdatePayload (env : Env) (d : ResourceData) :
    Except String AccountUpdateParameters × List RemoteCall :=
  let p := expandAzureRmStorageAccountKeyVaultProperties d 0
  let keyVaultProperties := p.1
  -- utils.String("") on line 118 allocates a fresh cell at address p.2
  if goStrPtrEq keyVaultProperties.KeyName (some (p.2, "")) then
    (.ok defaultUpdateOpts, [])
  else
    match getOkKeyVaultId d with
    | none => (.ok defaultUpdateOpts, [])
    | some keyVaultId =>
        match env.getKeyVaultBaseUrlFromID keyVaultId with
        | .error e =>
            (.error ("Error looking up Key Vault URI from id \"" ++ keyVaultId ++ "\": " ++ e),
             [.vaultUriLookup keyVaultId])
        | .ok pKeyVaultBaseUrl =>
            (.ok (keyVaultOverlayOpts d pKeyVaultBaseUrl), [.vaultUriLookup keyVaultId])

/-- Source lines 145-191, `resourceArmStorageAccountEncryptionSettingsRead`.
The `d.Set("enable_blob_encryption", ...)` and
`d.Set("enable_file_encryption", ...)` calls at lines 172/175 target
attributes this resource's schema does not declare, so the SDK rejects the
write and the (ignored) error leaves the record unchanged; they are
therefore no-ops on the state. -/
def resourceArmStorageAccountEncryptionSettingsRead (env : Env) (d : ResourceData) :
    OpResult Unit :=
  match env.parse d.storage_account_id with
  | .error e => ⟨.error e, d, []⟩
  | .ok id =>
      let name := id.storageAccounts
      let resGroup := id.resourceGroup
      let trace := [RemoteCall.getProperties resGroup name]
      match env.getProperties resGroup name with
      | .notFound => ⟨.ok (), { d with rid := "" }, trace⟩
      | .err e =>
          ⟨.error ("Error reading the state of AzureRM Storage Account \"" ++ name ++ "\": " ++ e),
           d, trace⟩
      | .ok props =>
          match props with
          | none => ⟨.ok (), d, trace⟩
          | some ps =>
              match ps.Encryption with
              | none => ⟨.ok (), d, trace⟩
              | some encryption =>
                  match encryption.KeyVaultProperties with
                  | none => ⟨.ok (), d, trace⟩
                  | some keyVaultProperties =>
                      let keyVaultId := getKeyVaultId d
                      let keyVaultPolicyId := getKeyVaultPolicyId d
                      ⟨.ok (),
                       { d with key_vault :=
                          (flattenAzureRmStorageAccountKeyVaultProperties
                            (some keyVaultProperties) keyVaultId keyVaultPolicyId) },
                       trace⟩

/-- Source lines 83-143,
`resourceArmStorageAccountEncryptionSettingsCreateUpdate`: parse the id,
build the payload (lines 101-132), issue the update, derive and record the
handle, then chain into the read for the read-back. -/
def resourceArmStorageAccountEncryptionSettingsCreateUpdate (env : Env) (d : ResourceData) :
    OpResult Unit :=
  let storageAccountId := d.storage_account_id
  match env.parse storageAccountId with
  | .error e => ⟨.error e, d, []⟩
  | .ok id =>
      let storageAccountName := id.storageAccounts
      let resourceGroupName := id.resourceGroup
      match buildUpdatePayload env d with
      | (.error e, calls) => ⟨.error e, d, calls⟩
      | (.ok opts, calls) =>
          match env.update resourceGroupName storageAccountName opts with
          | .error e =>
              ⟨.error ("Error updating Azure Storage Account Encryption \"" ++
                  storageAccountName ++ "\": " ++ e),
               d, calls ++ [.update resourceGroupName storageAccountName opts]⟩
          | .ok _ =>
              let resourceId := storageAccountId ++ "/encryptionSettings"
              let d1 := { d with rid := resourceId }
              let r := resourceArmStorageAccountEncryptionSettingsRead env d1
              ⟨r.result, r.final,
               calls ++ [.update resourceGroupName storageAccountName opts] ++ r.trace⟩

/-- Source lines 212-218: the revert-to-default payload, which sets only
the key source: no `Services` object, nil `KeyVaultProperties`. -/
def revertToDefaultOpts : AccountUpdateParameters :=
  { Encryption := some
      { Services := none, KeySource := .MicrosoftStorage, KeyVaultProperties := none } }

/-- Source lines 193-226,
`resourceArmStorageAccountEncryptionSettingsDelete`: a revert-to-default
update (the "Delete doesn't really make sense, revert to default" comment
of the source): parse, then one update call with `revertToDefaultOpts`;
no deletion endpoint is ever invoked. -/
def resourceArmStorageAccountEncryptionSettingsDelete (env : Env) (d : ResourceData) :
    OpResult Unit :=
  match env.parse d.storage_account_id with
  | .error e => ⟨.error e, d, []⟩
  | .ok id =>
      let storageAccountName := id.storageAccounts
      let resourceGroupName := id.resourceGroup
      let opts : AccountUpdateParameters := revertToDefaultOpts
      match env.update resourceGroupName storageAccountName opts with
      | .error e =>
          ⟨.error ("Error updating Azure Storage Account Encryption \"" ++
              storageAccountName ++ "\": " ++ e),
           d, [.update resourceGroupName storageAccountName opts]⟩
      | .ok _ => ⟨.ok (), d, [.update resourceGroupName storageAccountName opts]⟩

/-- Source lines 228-270,
`resourceArmStorageAccountEncryptionSettingsImportState`: set
`storage_account_id` to the supplied handle, fetch the remote properties,
flatten any key-vault-properties with empty carry-forward ids, then record
the canonical handle. -/
def resourceArmStorageAccountEncryptionSettingsImportState (env : Env) (d : ResourceData) :
    OpResult (List ResourceData) :=
  let id := d.rid
  let d0 := { d with storage_account_id := id }
  match env.parse id with
  | .error e => ⟨.error e, d0, []⟩
  | .ok saId =>
      let name := saId.storageAccounts
      let resGroup := saId.resourceGroup
      let trace := [RemoteCall.getProperties resGroup name]
      match env.getProperties resGroup name with
      | .notFound => ⟨.ok [], { d0 with rid := "" }, trace⟩
      | .err e =>
          ⟨.error ("Error importing the state of AzureRM Storage Account \"" ++ name ++ "\": " ++ e),
           d0, trace⟩
      | .ok props =>
          let d1 :=
            match props with
            | some ps =>
                match ps.Encryption with
                | some encryption =>
                    match encryption.KeyVaultProperties with
                    | some keyVaultProperties =>
                        { d0 with key_vault :=
                            (flattenAzureRmStorageAccountKeyVaultProperties
                              (some keyVaultProperties) "" "") }
                    | none => d0
                | none => d0
            | none => d0
          let resourceId := id ++ "/encryptionSettings"
          let d2 := { d1 with rid := resourceId }
          ⟨.ok [d2], d2, trace⟩

/-! ### Derived predicates and payload accessors used by the theorems -/

/-- Key source of a payload, when its encryption object is set. -/
def payloadKeySource (p : AccountUpdateParameters) : Option KeySource :=
  p.Encryption.map fun e => e.KeySource

/-- Key-vault-properties of a payload, when set. -/
def payloadKeyVaultProperties (p : AccountUpdateParameters) : Option KeyVaultProperties :=
  p.Encryption.bind fun e => e.KeyVaultProperties

/-- Key source produced by the create-or-update payload construction, or
`none` when the construction fails or carries no encryption object. -/
def builtKeySource (env : Env) (d : ResourceData) : Option KeySource :=
  match (buildUpdatePayload env d).1 with
  | .ok p => payloadKeySource p
  | .error _ => none

/-- The key-vault-properties record carried by a fetched remote state, if
any. -/
def remoteKeyVaultProperties (props : Option AccountProperties) : Option KeyVaultProperties :=
  (props.bind fun ps => ps.Encryption).bind fun e => e.KeyVaultProperties

/-- Whether a remote call is an `update` whose payload enables both blob
and file encryption services; non-update calls pass vacuously. -/
def updateSetsBlobFileTrue : RemoteCall → Bool
  | .update _ _ p =>
      match p.Encryption with
      | some e =>
          match e.Services with
          | some s =>
              (match s.Blob with | some b => b.Enabled | none => false)
                && (match s.File with | some f => f.Enabled | none => false)
          | none => false
      | none => false
  | _ => true

/-- Whether a remote call is an `update` whose payload carries no
`Services` object at all; non-update calls pass vacuously. -/
def updateOmitsServices : RemoteCall → Bool
  | .update _ _ p =>
      match p.Encryption with
      | some e => e.Services.isNone
      | none => true
  | _ => true

/-- Whether a remote call is the account-deletion endpoint. -/
def isDeleteCall : RemoteCall → Bool
  | .deleteAccount _ _ => true
  | _ => false

/-- Whether a remote call is a key-vault URI lookup. -/
def isVaultUriLookup : RemoteCall → Bool
  | .vaultUriLookup _ => true
  | _ => false

/-- Whether a trace contains a call to the account-deletion endpoint. -/
def containsDeleteCall (t : List RemoteCall) : Bool := t.any isDeleteCall

/-- Whether a trace contains a key-vault URI lookup. -/
def containsVaultUriLookup (t : List RemoteCall) : Bool := t.any isVaultUriLookup

/-- What the read path guarantees for each outcome of the remote
properties lookup: not-found clears the recorded handle and returns no
error; any other lookup failure surfaces an error; success is not
constrained here. -/
def readLookupBehaviour (env : Env) (d : ResourceData) (id : ResourceID) : Prop :=
  match env.getProperties id.resourceGroup id.storageAccounts with
  | .notFound =>
      (resourceArmStorageAccountEncryptionSettingsRead env d).result = .ok ()
      ∧ (resourceArmStorageAccountEncryptionSettingsRead env d).final.rid = ""
  | .err e =>
      (resourceArmStorageAccountEncryptionSettingsRead env d).result =
        .error ("Error reading the state of AzureRM Storage Account \"" ++
          id.storageAccounts ++ "\": " ++ e)
  | .ok _ => True

/-- What the import path guarantees for each outcome of the remote
properties lookup: not-found clears the recorded handle and returns no
error (and no resources); any other lookup failure surfaces an error;
success is not constrained here. -/
def importLookupBehaviour (env : Env) (d : ResourceData) (id : ResourceID) : Prop :=
  match env.getProperties id.resourceGroup id.storageAccounts with
  | .notFound =>
      (resourceArmStorageAccountEncryptionSettingsImportState env d).result = .ok []
      ∧ (resourceArmStorageAccountEncryptionSettingsImportState env d).final.rid = ""
  | .err e =>
      (resourceArmStorageAccountEncryptionSettingsImportState env d).result =
        .error ("Error importing the state of AzureRM Storage Account \"" ++
          id.storageAccounts ++ "\": " ++ e)
  | .ok _ => True

/-! ### Concrete sample data used by witnesses and counterexamples -/

/-- A well-formed storage-account identifier. -/
def sampleAccountId : String :=
  "/subscriptions/S/resourceGroups/G/providers/Microsoft.Storage/storageAccounts/acct1"

/-- A well-formed key-vault identifier. -/
def sampleVaultId : String :=
  "/subscriptions/S/resourceGroups/G/providers/Microsoft.KeyVault/vaults/vault1"

/-- The parse of `sampleAccountId`. -/
def sampleResourceID : ResourceID := ⟨"G", "acct1"⟩

/-- Identifier decoder resolving exactly `sampleAccountId`. -/
def sampleParse : String → Except String ResourceID := fun s =>
  if s = sampleAccountId then .ok sampleResourceID
  else .error ("parse error on " ++ s)

/-- Vault resolver answering exactly `sampleVaultId`. -/
def sampleVaultResolver : String → Except String String := fun v =>
  if v = sampleVaultId then .ok "https://vault1.vault.azure.net/"
  else .error ("vault not found: " ++ v)

/-- A remote state whose encryption carries key-vault-properties. -/
def sampleRemotePropsKV : Option AccountProperties :=
  some ⟨some ⟨some ⟨some ⟨true⟩, some ⟨true⟩⟩, .MicrosoftKeyvault,
    some ⟨some (0, "k1"), some (1, "v1"), some (2, "https://vault1.vault.azure.net/")⟩⟩⟩

/-- A remote state whose encryption carries no key-vault-properties. -/
def sampleRemotePropsNoKV : Option AccountProperties :=
  some ⟨some ⟨some ⟨some ⟨true⟩, some ⟨true⟩⟩, .MicrosoftStorage, none⟩⟩

/-- Environment where every collaborator succeeds and the remote account
has key-vault-managed encryption. -/
def envOk : Env :=
  { parse := sampleParse,
    getKeyVaultBaseUrlFromID := sampleVaultResolver,
    update := fun _ _ _ => .ok (),
    getProperties := fun _ _ => .ok sampleRemotePropsKV }

/-- Environment where every collaborator succeeds and the remote account
has platform-managed encryption (no key-vault-properties). -/
def envNoKV : Env :=
  { envOk with getProperties := fun _ _ => .ok sampleRemotePropsNoKV }

/-- Environment where the remote account lookup reports not-found. -/
def envNotFound : Env :=
  { envOk with getProperties := fun _ _ => .notFound }

/-- Environment where the remote update call fails. -/
def envUpdateFails : Env :=
  { envOk with update := fun _ _ _ => .error "boom" }

/-- Declared state with no `key_vault` block. -/
def dPlain : ResourceData :=
  { storage_account_id := sampleAccountId, key_vault := [], rid := "" }

/-- Declared state whose handle and account id are both the sample account
identifier (the shape read and import receive). -/
def dImported : ResourceData :=
  { storage_account_id := sampleAccountId, key_vault := [], rid := sampleAccountId }

/-- A fully populated `key_vault` block, its computed URI consistent with
the resolver. -/
def sampleBlock : KeyVaultBlock :=
  { key_vault_policy_id := "policy1", key_vault_id := sampleVaultId,
    key_name := "k1", key_version := "v1",
    key_vault_uri := "https://vault1.vault.azure.net/" }

/-- Declared state with a fully populated `key_vault` block. -/
def dKeyVault : ResourceData :=
  { storage_account_id := sampleAccountId, key_vault := [sampleBlock], rid := "" }

/-- Declared state whose `key_vault` block has an empty `key_name` but a
populated `key_vault_id`. -/
def dEmptyKeyName : ResourceData :=
  { storage_account_id := sampleAccountId,
    key_vault := [{ key_vault_policy_id := "policy1", key_vault_id := sampleVaultId,
                    key_name := "", key_version := "v1", key_vault_uri := "" }],
    rid := "" }

/-- Declared state whose `key_vault` block has an empty `key_vault_id`
but populated `key_name`/`key_version`. -/
def dEmptyVaultId : ResourceData :=
  { storage_account_id := sampleAccountId,
    key_vault := [{ key_vault_policy_id := "policy1", key_vault_id := "",
                    key_name := "k1", key_version := "v1", key_vault_uri := "" }],
    rid := "" }

/-! ### Claims -/

/-- Claim C1.  The spec demands that the write payload be
key-vault-managed iff the `key_vault` block is present with a non-empty
`key_name`, and platform-managed with no key reference otherwise, even
when other block fields are populated.  The code violates this: the guard
at source line 118 compares the `KeyName` pointer against a freshly
allocated `utils.String("")` pointer, which is true for every input, so
the payload is governed solely by `key_vault_id`.  At a declared
configuration whose block has `key_name = ""` and a populated
`key_vault_id`, the code issues a key-vault-managed payload whose key
reference carries the empty key name. -/
theorem keyvaultManagedDespiteEmptyKeyName :
    getKeyName dEmptyKeyName = ""
      ∧ builtKeySource envOk dEmptyKeyName = some KeySource.MicrosoftKeyvault
      ∧ (payloadKeyVaultProperties
          ((buildUpdatePayload envOk dEmptyKeyName).1.toOption.getD defaultUpdateOpts)).isSome = true := by
  refine ⟨rfl, ?_, ?_⟩ <;> decide

/-- Claim C2, counterexample.  The claim states that every remote write,
the delete write included, carries `services.blob.enabled = true` and
`services.file.enabled = true`; but the delete payload (source lines
212-218) carries no `Services` object at all, so the write issued by
delete falsifies the claim. -/
theorem deleteWriteLacksBlobFileFlags :
    ((resourceArmStorageAccountEncryptionSettingsDelete envOk dPlain).trace.all
      updateSetsBlobFileTrue) = false := by
  decide


/-! ### Structural lemmas about the embedded operations -/

/-- The pointer comparison of source line 118 never finds the two pointers
equal: `KeyName` is either `nil` or a cell allocated before the fresh
`utils.String("")` cell, so the Go condition `!=` always holds. -/
theorem goStrGateAlwaysFalse (d : ResourceData) :
    goStrPtrEq (expandAzureRmStorageAccountKeyVaultProperties d 0).1.KeyName
      (some ((expandAzureRmStorageAccountKeyVaultProperties d 0).2, "")) = false := by
  rcases d with ⟨sa, kv, rid⟩
  cases kv <;> rfl

/-- Unfolded behaviour of the payload construction: the pointer guard of
line 118 is vacuous, so the payload is governed solely by
`GetOk("key_vault.0.key_vault_id")`. -/
theorem buildUpdatePayload_spec (env : Env) (d : ResourceData) :
    buildUpdatePayload env d =
      match getOkKeyVaultId d with
      | none => (.ok defaultUpdateOpts, [])
      | some keyVaultId =>
          match env.getKeyVaultBaseUrlFromID keyVaultId with
          | .error e =>
              (.error ("Error looking up Key Vault URI from id \"" ++ keyVaultId ++ "\": " ++ e),
               [.vaultUriLookup keyVaultId])
          | .ok uri => (.ok (keyVaultOverlayOpts d uri), [.vaultUriLookup keyVaultId]) := by
  unfold buildUpdatePayload
  simp only [goStrGateAlwaysFalse, Bool.false_eq_true, if_false]

/-- The read path's trace when the identifier parses: exactly one
`GetProperties` call, whatever the remote returns. -/
theorem read_trace_parse_ok (env : Env) (d : ResourceData) (id : ResourceID)
    (hp : env.parse d.storage_account_id = .ok id) :
    (resourceArmStorageAccountEncryptionSettingsRead env d).trace =
      [RemoteCall.getProperties id.resourceGroup id.storageAccounts] := by
  unfold resourceArmStorageAccountEncryptionSettingsRead
  split
  · rename_i e heq
    rw [hp] at heq
    cases heq
  · rename_i id' heq
    rw [hp] at heq
    injection heq with h
    subst h
    dsimp only
    repeat' split
    all_goals rfl

/-- The read path's trace when the identifier fails to parse: no remote
call. -/
theorem read_trace_parse_error (env : Env) (d : ResourceData) (e : String)
    (hp : env.parse d.storage_account_id = .error e) :
    (resourceArmStorageAccountEncryptionSettingsRead env d).trace = [] := by
  unfold resourceArmStorageAccountEncryptionSettingsRead
  split
  · rfl
  · rename_i id' heq
    rw [hp] at heq
    cases heq


/-- Create-or-update when the identifier fails to parse: the error is
surfaced, nothing else happens. -/
theorem createUpdate_parse_error (env : Env) (d : ResourceData) (e : String)
    (hp : env.parse d.storage_account_id = .error e) :
    resourceArmStorageAccountEncryptionSettingsCreateUpdate env d = ⟨.error e, d, []⟩ := by
  unfold resourceArmStorageAccountEncryptionSettingsCreateUpdate
  dsimp only
  rw [hp]

/-- Create-or-update when the payload construction fails (the vault-URI
lookup error of line 125): the error is surfaced and only the lookup was
issued. -/
theorem createUpdate_build_error (env : Env) (d : ResourceData) (id : ResourceID)
    (e : String) (calls : List RemoteCall)
    (hp : env.parse d.storage_account_id = .ok id)
    (hb : buildUpdatePayload env d = (.error e, calls)) :
    resourceArmStorageAccountEncryptionSettingsCreateUpdate env d = ⟨.error e, d, calls⟩ := by
  unfold resourceArmStorageAccountEncryptionSettingsCreateUpdate
  dsimp only
  rw [hp, hb]

/-- Create-or-update when the payload construction succeeds: the update is
issued with the built payload, and on success the handle is recorded and
the read-back chained. -/
theorem createUpdate_spec_ok (env : Env) (d : ResourceData) (id : ResourceID)
    (opts : AccountUpdateParameters) (calls : List RemoteCall)
    (hp : env.parse d.storage_account_id = .ok id)
    (hb : buildUpdatePayload env d = (.ok opts, calls)) :
    resourceArmStorageAccountEncryptionSettingsCreateUpdate env d =
      match env.update id.resourceGroup id.storageAccounts opts with
      | .error e =>
          ⟨.error ("Error updating Azure Storage Account Encryption \"" ++
              id.storageAccounts ++ "\": " ++ e), d,
           calls ++ [.update id.resourceGroup id.storageAccounts opts]⟩
      | .ok _ =>
          let r := resourceArmStorageAccountEncryptionSettingsRead env
            { d with rid := d.storage_account_id ++ "/encryptionSettings" }
          ⟨r.result, r.final,
           calls ++ [.update id.resourceGroup id.storageAccounts opts] ++ r.trace⟩ := by
  unfold resourceArmStorageAccountEncryptionSettingsCreateUpdate
  dsimp only
  rw [hp, hb]

/-- The delete path's trace when the identifier parses: exactly one update
call carrying the revert-to-default payload, whatever the remote
returns. -/
theorem delete_trace_parse_ok (env : Env) (d : ResourceData) (id : ResourceID)
    (hp : env.parse d.storage_account_id = .ok id) :
    (resourceArmStorageAccountEncryptionSettingsDelete env d).trace =
      [RemoteCall.update id.resourceGroup id.storageAccounts revertToDefaultOpts] := by
  unfold resourceArmStorageAccountEncryptionSettingsDelete
  dsimp only
  rw [hp]
  dsimp only
  split <;> rfl

/-- Claim C2, amended.  The claim's universal ("every remote write carries
blob.enabled=true and file.enabled=true") holds for every update the
create-or-update path issues, but not for the delete write, which omits
the `Services` object entirely (it sets only the key source); amended
accordingly. -/
theorem writesBlobFileInvariant (env : Env) (d : ResourceData) :
    ((resourceArmStorageAccountEncryptionSettingsCreateUpdate env d).trace.all
        updateSetsBlobFileTrue) = true
      ∧ ((resourceArmStorageAccountEncryptionSettingsDelete env d).trace.all
        updateOmitsServices) = true := by
  constructor
  · cases hp : env.parse d.storage_account_id with
    | error e =>
        rw [createUpdate_parse_error env d e hp]
        rfl
    | ok id =>
        have hspec := buildUpdatePayload_spec env d
        cases hok : getOkKeyVaultId d with
        | none =>
            rw [hok] at hspec
            dsimp only at hspec
            rw [createUpdate_spec_ok env d id defaultUpdateOpts [] hp hspec]
            cases hu : env.update id.resourceGroup id.storageAccounts defaultUpdateOpts with
            | error e => rfl
            | ok u =>
                dsimp only
                rw [read_trace_parse_ok env
                  { d with rid := d.storage_account_id ++ "/encryptionSettings" } id hp]
                rfl
        | some v =>
            rw [hok] at hspec
            dsimp only at hspec
            cases hres : env.getKeyVaultBaseUrlFromID v with
            | error e =>
                rw [hres] at hspec
                dsimp only at hspec
                rw [createUpdate_build_error env d id _ _ hp hspec]
                rfl
            | ok uri =>
                rw [hres] at hspec
                dsimp only at hspec
                rw [createUpdate_spec_ok env d id (keyVaultOverlayOpts d uri) _ hp hspec]
                cases hu : env.update id.resourceGroup id.storageAccounts (keyVaultOverlayOpts d uri) with
                | error e => rfl
                | ok u =>
                    dsimp only
                    rw [read_trace_parse_ok env
                      { d with rid := d.storage_account_id ++ "/encryptionSettings" } id hp]
                    rfl
  · cases hp : env.parse d.storage_account_id with
    | error e =>
        unfold resourceArmStorageAccountEncryptionSettingsDelete
        dsimp only
        rw [hp]
        rfl
    | ok id =>
        rw [delete_trace_parse_ok env d id hp]
        rfl

/-- The import path's trace when the supplied handle fails to parse: no
remote call. -/
theorem import_trace_parse_error (env : Env) (d : ResourceData) (e : String)
    (hp : env.parse d.rid = .error e) :
    (resourceArmStorageAccountEncryptionSettingsImportState env d).trace = [] := by
  unfold resourceArmStorageAccountEncryptionSettingsImportState
  dsimp only
  rw [hp]

/-- The import path's trace when the supplied handle parses: exactly one
`GetProperties` call, whatever the remote returns. -/
theorem import_trace_parse_ok (env : Env) (d : ResourceData) (id : ResourceID)
    (hp : env.parse d.rid = .ok id) :
    (resourceArmStorageAccountEncryptionSettingsImportState env d).trace =
      [RemoteCall.getProperties id.resourceGroup id.storageAccounts] := by
  unfold resourceArmStorageAccountEncryptionSettingsImportState
  dsimp only
  rw [hp]
  dsimp only
  split <;> rfl


/-- Claim C3.  For every prior state whose recorded `storage_account_id`
parses (which any state that was created or imported satisfies), delete
issues exactly one remote call: an update whose payload has
key-source = platform-managed and omits key-vault-properties; it never
invokes a deletion endpoint on the storage account or anything else. -/
theorem deleteIssuesSingleRevertUpdate (env : Env) (d : ResourceData) (id : ResourceID)
    (hp : env.parse d.storage_account_id = .ok id) :
    (resourceArmStorageAccountEncryptionSettingsDelete env d).trace =
      [RemoteCall.update id.resourceGroup id.storageAccounts revertToDefaultOpts]
    ∧ payloadKeySource revertToDefaultOpts = some KeySource.MicrosoftStorage
    ∧ payloadKeyVaultProperties revertToDefaultOpts = none
    ∧ containsDeleteCall (resourceArmStorageAccountEncryptionSettingsDelete env d).trace
        = false := by
  have ht := delete_trace_parse_ok env d id hp
  exact ⟨ht, rfl, rfl, by rw [ht]; rfl⟩

/-- Witness for C3 at a concrete prior state and environment. -/
theorem deleteIssuesSingleRevertUpdateWitness :
    envOk.parse dPlain.storage_account_id = .ok sampleResourceID
    ∧ ((resourceArmStorageAccountEncryptionSettingsDelete envOk dPlain).trace =
        [RemoteCall.update "G" "acct1" revertToDefaultOpts]
      ∧ payloadKeySource revertToDefaultOpts = some KeySource.MicrosoftStorage
      ∧ payloadKeyVaultProperties revertToDefaultOpts = none
      ∧ containsDeleteCall (resourceArmStorageAccountEncryptionSettingsDelete envOk dPlain).trace
          = false) :=
  ⟨rfl, deleteIssuesSingleRevertUpdate envOk dPlain sampleResourceID rfl⟩

/-- Claim C4, counterexample.  The claim bounds every invocation by two
remote calls in total; but a create-or-update with a configured key vault
issues three: the vault-URI lookup, the update, and the read-back
`GetProperties`. -/
theorem createUpdateIssuesThreeRemoteCalls :
    ¬ ((resourceArmStorageAccountEncryptionSettingsCreateUpdate envOk dKeyVault).trace.length
        ≤ 2) := by
  decide

/-- Claim C4, amended.  Every invocation issues at most three sequential
remote calls: read, delete and import issue at most one, and
create-or-update at most three (an optional vault-URI lookup, the write,
and the read-back). -/
theorem remoteCallCountBounds (env : Env) (d : ResourceData) :
    (resourceArmStorageAccountEncryptionSettingsCreateUpdate env d).trace.length ≤ 3
    ∧ (resourceArmStorageAccountEncryptionSettingsRead env d).trace.length ≤ 1
    ∧ (resourceArmStorageAccountEncryptionSettingsDelete env d).trace.length ≤ 1
    ∧ (resourceArmStorageAccountEncryptionSettingsImportState env d).trace.length ≤ 1 := by
  refine ⟨?_, ?_, ?_, ?_⟩
  · cases hp : env.parse d.storage_account_id with
    | error e => rw [createUpdate_parse_error env d e hp]; simp
    | ok id =>
        have hspec := buildUpdatePayload_spec env d
        cases hok : getOkKeyVaultId d with
        | none =>
            rw [hok] at hspec
            dsimp only at hspec
            rw [createUpdate_spec_ok env d id defaultUpdateOpts [] hp hspec]
            cases hu : env.update id.resourceGroup id.storageAccounts defaultUpdateOpts with
            | error e => simp
            | ok u =>
                dsimp only
                rw [read_trace_parse_ok env
                  { d with rid := d.storage_account_id ++ "/encryptionSettings" } id hp]
                simp
        | some v =>
            rw [hok] at hspec
            dsimp only at hspec
            cases hres : env.getKeyVaultBaseUrlFromID v with
            | error e =>
                rw [hres] at hspec
                dsimp only at hspec
                rw [createUpdate_build_error env d id _ _ hp hspec]
                simp
            | ok uri =>
                rw [hres] at hspec
                dsimp only at hspec
                rw [createUpdate_spec_ok env d id (keyVaultOverlayOpts d uri) _ hp hspec]
                cases hu : env.update id.resourceGroup id.storageAccounts
                    (keyVaultOverlayOpts d uri) with
                | error e => simp
                | ok u =>
                    dsimp only
                    rw [read_trace_parse_ok env
                      { d with rid := d.storage_account_id ++ "/encryptionSettings" } id hp]
                    simp
  · cases hp : env.parse d.storage_account_id with
    | error e => rw [read_trace_parse_error env d e hp]; simp
    | ok id => rw [read_trace_parse_ok env d id hp]; simp
  · cases hp : env.parse d.storage_account_id with
    | error e =>
        unfold resourceArmStorageAccountEncryptionSettingsDelete
        dsimp only
        rw [hp]
        simp
    | ok id => rw [delete_trace_parse_ok env d id hp]; simp
  · cases hp : env.parse d.rid with
    | error e => rw [import_trace_parse_error env d e hp]; simp
    | ok id => rw [import_trace_parse_ok env d id hp]; simp

/-- Claim C5, counterexample.  The claim says that when the fetched remote
state has no key-vault-properties, the resulting declared state has the
`key_vault` block empty for every prior declared configuration; but the
read path only writes `key_vault` when remote key-vault-properties are
present, so a prior state with a populated block keeps it. -/
theorem readKeepsStaleKeyVaultBlock :
    ¬ ((resourceArmStorageAccountEncryptionSettingsRead envNoKV dKeyVault).final.key_vault
        = []) := by
  decide

/-- Claim C5, amended.  When the remote lookup succeeds and the fetched
state carries no key-vault-properties, read returns without error and
leaves the `key_vault` block of the declared state unchanged (in
particular it is empty exactly when the prior declared configuration had
it empty). -/
theorem readLeavesKeyVaultWhenRemoteAbsent (env : Env) (d : ResourceData) (id : ResourceID)
    (props : Option AccountProperties)
    (hp : env.parse d.storage_account_id = .ok id)
    (hg : env.getProperties id.resourceGroup id.storageAccounts = .ok props)
    (hkvp : remoteKeyVaultProperties props = none) :
    (resourceArmStorageAccountEncryptionSettingsRead env d).final.key_vault = d.key_vault
    ∧ (resourceArmStorageAccountEncryptionSettingsRead env d).result = .ok () := by
  unfold resourceArmStorageAccountEncryptionSettingsRead
  dsimp only
  rw [hp]
  dsimp only
  rw [hg]
  dsimp only
  cases props with
  | none => exact ⟨rfl, rfl⟩
  | some ps =>
      dsimp only
      cases hE : ps.Encryption with
      | none => exact ⟨rfl, rfl⟩
      | some encryption =>
          have hk : encryption.KeyVaultProperties = none := by
            simpa [remoteKeyVaultProperties, hE] using hkvp
          dsimp only
          rw [hk]
          exact ⟨rfl, rfl⟩

/-- Witness for the amended C5 at a concrete prior state with a populated
block and a remote state without key-vault-properties. -/
theorem readLeavesKeyVaultWhenRemoteAbsentWitness :
    remoteKeyVaultProperties sampleRemotePropsNoKV = none
    ∧ ((resourceArmStorageAccountEncryptionSettingsRead envNoKV dKeyVault).final.key_vault
        = dKeyVault.key_vault
      ∧ (resourceArmStorageAccountEncryptionSettingsRead envNoKV dKeyVault).result = .ok ()) :=
  ⟨rfl, readLeavesKeyVaultWhenRemoteAbsent envNoKV dKeyVault sampleResourceID
    sampleRemotePropsNoKV rfl rfl rfl⟩

/-- Claim C6.  Round-trip: for a declared configuration with a populated
`key_vault` block (non-empty `key_vault_id`, resolver succeeding, and the
computed `key_vault_uri` equal to the resolved URI, as the core itself
maintains), the built wire payload read back through the flatten with the
declared ids as carry-forward recovers the block exactly: `key_name`,
`key_version` and `key_vault_uri` identical to the originals, and
`key_vault_id`/`key_vault_policy_id` carried through unchanged. -/
theorem expandFlattenRoundTrip (env : Env) (d : ResourceData) (b : KeyVaultBlock)
    (uri : String)
    (hb : d.key_vault = [b])
    (hid : b.key_vault_id ≠ "")
    (hres : env.getKeyVaultBaseUrlFromID b.key_vault_id = .ok uri)
    (huri : b.key_vault_uri = uri) :
    (buildUpdatePayload env d).1 = .ok (keyVaultOverlayOpts d uri)
    ∧ flattenAzureRmStorageAccountKeyVaultProperties
        (payloadKeyVaultProperties (keyVaultOverlayOpts d uri))
        b.key_vault_id b.key_vault_policy_id = [b] := by
  have hok : getOkKeyVaultId d = some b.key_vault_id := by
    unfold getOkKeyVaultId
    rw [hb]
    simp [hid]
  have hspec := buildUpdatePayload_spec env d
  rw [hok] at hspec
  dsimp only at hspec
  rw [hres] at hspec
  dsimp only at hspec
  refine ⟨by rw [hspec], ?_⟩
  unfold keyVaultOverlayOpts payloadKeyVaultProperties
  unfold expandAzureRmStorageAccountKeyVaultProperties
  rw [hb]
  dsimp only
  unfold flattenAzureRmStorageAccountKeyVaultProperties
  cases b
  simp_all

/-- Witness for C6 at the sample block and resolver. -/
theorem expandFlattenRoundTripWitness :
    dKeyVault.key_vault = [sampleBlock]
    ∧ sampleBlock.key_vault_id ≠ ""
    ∧ envOk.getKeyVaultBaseUrlFromID sampleBlock.key_vault_id
        = .ok "https://vault1.vault.azure.net/"
    ∧ ((buildUpdatePayload envOk dKeyVault).1
        = .ok (keyVaultOverlayOpts dKeyVault "https://vault1.vault.azure.net/")
      ∧ flattenAzureRmStorageAccountKeyVaultProperties
          (payloadKeyVaultProperties
            (keyVaultOverlayOpts dKeyVault "https://vault1.vault.azure.net/"))
          sampleBlock.key_vault_id sampleBlock.key_vault_policy_id = [sampleBlock]) :=
  ⟨rfl, by decide, rfl,
   expandFlattenRoundTrip envOk dKeyVault sampleBlock "https://vault1.vault.azure.net/"
     rfl (by decide) rfl rfl⟩

/-- Claim C7.  When the payload is built and the remote update fails, the
create-or-update operation surfaces an error carrying the storage-account
name and the underlying cause, and the local record is unchanged: no
handle and no declared-state fragment is committed. -/
theorem createUpdateRemoteFailureNoCommit (env : Env) (d : ResourceData) (id : ResourceID)
    (opts : AccountUpdateParameters) (calls : List RemoteCall) (e : String)
    (hp : env.parse d.storage_account_id = .ok id)
    (hb : buildUpdatePayload env d = (.ok opts, calls))
    (hu : env.update id.resourceGroup id.storageAccounts opts = .error e) :
    (resourceArmStorageAccountEncryptionSettingsCreateUpdate env d).result =
      .error ("Error updating Azure Storage Account Encryption \"" ++
        id.storageAccounts ++ "\": " ++ e)
    ∧ (resourceArmStorageAccountEncryptionSettingsCreateUpdate env d).final = d := by
  rw [createUpdate_spec_ok env d id opts calls hp hb]
  rw [hu]
  exact ⟨rfl, rfl⟩

/-- Witness for C7 at a concrete configuration and a failing remote
update. -/
theorem createUpdateRemoteFailureNoCommitWitness :
    buildUpdatePayload envUpdateFails dPlain = (.ok defaultUpdateOpts, [])
    ∧ envUpdateFails.update "G" "acct1" defaultUpdateOpts = .error "boom"
    ∧ ((resourceArmStorageAccountEncryptionSettingsCreateUpdate envUpdateFails dPlain).result =
        .error "Error updating Azure Storage Account Encryption \"acct1\": boom"
      ∧ (resourceArmStorageAccountEncryptionSettingsCreateUpdate envUpdateFails dPlain).final
          = dPlain) :=
  ⟨rfl, rfl,
   createUpdateRemoteFailureNoCommit envUpdateFails dPlain sampleResourceID
     defaultUpdateOpts [] "boom" rfl rfl rfl⟩


/-- Claim C8.  On read and on import, a not-found from the remote
properties lookup signals absence: the recorded handle is cleared and no
error is returned; every other failure of the lookup is returned as an
error. -/
theorem notFoundClearsHandleNoError (env : Env) (d : ResourceData) (id1 id2 : ResourceID)
    (h1 : env.parse d.storage_account_id = .ok id1)
    (h2 : env.parse d.rid = .ok id2) :
    readLookupBehaviour env d id1 ∧ importLookupBehaviour env d id2 := by
  constructor
  · unfold readLookupBehaviour
    cases hg : env.getProperties id1.resourceGroup id1.storageAccounts with
    | notFound =>
        unfold resourceArmStorageAccountEncryptionSettingsRead
        dsimp only
        rw [h1]
        dsimp only
        rw [hg]
        exact ⟨rfl, rfl⟩
    | err e =>
        unfold resourceArmStorageAccountEncryptionSettingsRead
        dsimp only
        rw [h1]
        dsimp only
        rw [hg]
    | ok props => trivial
  · unfold importLookupBehaviour
    cases hg : env.getProperties id2.resourceGroup id2.storageAccounts with
    | notFound =>
        unfold resourceArmStorageAccountEncryptionSettingsImportState
        dsimp only
        rw [h2]
        dsimp only
        rw [hg]
        exact ⟨rfl, rfl⟩
    | err e =>
        unfold resourceArmStorageAccountEncryptionSettingsImportState
        dsimp only
        rw [h2]
        dsimp only
        rw [hg]
    | ok props => trivial

/-- Witness for C8 at a concrete state whose handle and account id both
parse, with a not-found remote. -/
theorem notFoundClearsHandleNoErrorWitness :
    envNotFound.parse dImported.storage_account_id = .ok sampleResourceID
    ∧ envNotFound.parse dImported.rid = .ok sampleResourceID
    ∧ (readLookupBehaviour envNotFound dImported sampleResourceID
       ∧ importLookupBehaviour envNotFound dImported sampleResourceID) :=
  ⟨rfl, rfl,
   notFoundClearsHandleNoError envNotFound dImported sampleResourceID sampleResourceID rfl rfl⟩

/-- Claim C9.  Import of a handle (the storage-account identifier itself)
whose remote state carries fully populated key-vault-properties: the
returned declared configuration has empty `key_vault_id` and
`key_vault_policy_id`, while `key_name`, `key_version` and
`key_vault_uri` come from the remote state; `storage_account_id` is set
to the handle (its storage-account portion), and the recorded handle is
that identifier followed by `/encryptionSettings`. -/
theorem importPopulatesFromRemoteWithEmptyCarryForward (env : Env) (d : ResourceData)
    (id : ResourceID) (svcs : Option EncryptionServices) (ks : KeySource)
    (a b c : Nat) (n v u : String)
    (hp : env.parse d.rid = .ok id)
    (hg : env.getProperties id.resourceGroup id.storageAccounts =
      .ok (some ⟨some ⟨svcs, ks, some ⟨some (a, n), some (b, v), some (c, u)⟩⟩⟩)) :
    (resourceArmStorageAccountEncryptionSettingsImportState env d).result =
      .ok [(resourceArmStorageAccountEncryptionSettingsImportState env d).final]
    ∧ (resourceArmStorageAccountEncryptionSettingsImportState env d).final.key_vault =
        [{ key_vault_policy_id := "", key_vault_id := "", key_name := n,
           key_version := v, key_vault_uri := u }]
    ∧ (resourceArmStorageAccountEncryptionSettingsImportState env d).final.storage_account_id
        = d.rid
    ∧ (resourceArmStorageAccountEncryptionSettingsImportState env d).final.rid
        = d.rid ++ "/encryptionSettings" := by
  unfold resourceArmStorageAccountEncryptionSettingsImportState
  dsimp only
  rw [hp]
  dsimp only
  rw [hg]
  exact ⟨rfl, rfl, rfl, rfl⟩

/-- Witness for C9 at the sample handle and a remote state with populated
key-vault-properties. -/
theorem importPopulatesFromRemoteWitness :
    envOk.parse dImported.rid = .ok sampleResourceID
    ∧ envOk.getProperties sampleResourceID.resourceGroup sampleResourceID.storageAccounts =
        .ok sampleRemotePropsKV
    ∧ ((resourceArmStorageAccountEncryptionSettingsImportState envOk dImported).result =
        .ok [(resourceArmStorageAccountEncryptionSettingsImportState envOk dImported).final]
      ∧ (resourceArmStorageAccountEncryptionSettingsImportState envOk dImported).final.key_vault
          = [{ key_vault_policy_id := "", key_vault_id := "", key_name := "k1",
               key_version := "v1", key_vault_uri := "https://vault1.vault.azure.net/" }]
      ∧ (resourceArmStorageAccountEncryptionSettingsImportState
            envOk dImported).final.storage_account_id = dImported.rid
      ∧ (resourceArmStorageAccountEncryptionSettingsImportState envOk dImported).final.rid
          = dImported.rid ++ "/encryptionSettings") :=
  ⟨rfl, rfl,
   importPopulatesFromRemoteWithEmptyCarryForward envOk dImported sampleResourceID
     (some ⟨some ⟨true⟩, some ⟨true⟩⟩) .MicrosoftKeyvault 0 1 2 "k1" "v1"
     "https://vault1.vault.azure.net/" rfl rfl⟩

/-- Claim C10.  Whenever the declared `key_vault` block's `key_vault_id`
is absent or empty (`GetOk` reports not-ok), create-or-update builds the
baseline platform-managed payload without issuing any key-vault URI
lookup and without raising an error from the payload construction,
regardless of `key_name` and `key_version`; the write it then issues
carries that platform-managed payload. -/
theorem emptyKeyVaultIdYieldsPlatformWrite (env : Env) (d : ResourceData) (id : ResourceID)
    (hp : env.parse d.storage_account_id = .ok id)
    (hok : getOkKeyVaultId d = none) :
    buildUpdatePayload env d = (.ok defaultUpdateOpts, [])
    ∧ payloadKeySource defaultUpdateOpts = some KeySource.MicrosoftStorage
    ∧ (resourceArmStorageAccountEncryptionSettingsCreateUpdate env d).trace.head? =
        some (.update id.resourceGroup id.storageAccounts defaultUpdateOpts)
    ∧ containsVaultUriLookup
        (resourceArmStorageAccountEncryptionSettingsCreateUpdate env d).trace = false := by
  have hspec := buildUpdatePayload_spec env d
  rw [hok] at hspec
  dsimp only at hspec
  refine ⟨hspec, rfl, ?_, ?_⟩
  · rw [createUpdate_spec_ok env d id defaultUpdateOpts [] hp hspec]
    cases hu : env.update id.resourceGroup id.storageAccounts defaultUpdateOpts with
    | error e => rfl
    | ok u => rfl
  · rw [createUpdate_spec_ok env d id defaultUpdateOpts [] hp hspec]
    cases hu : env.update id.resourceGroup id.storageAccounts defaultUpdateOpts with
    | error e => rfl
    | ok u =>
        dsimp only
        unfold containsVaultUriLookup
        rw [read_trace_parse_ok env
          { d with rid := d.storage_account_id ++ "/encryptionSettings" } id hp]
        rfl

/-- Witness for C10 at a concrete configuration whose `key_vault` block
has an empty `key_vault_id` but populated `key_name`/`key_version`. -/
theorem emptyKeyVaultIdYieldsPlatformWriteWitness :
    getOkKeyVaultId dEmptyVaultId = none
    ∧ (buildUpdatePayload envOk dEmptyVaultId = (.ok defaultUpdateOpts, [])
      ∧ payloadKeySource defaultUpdateOpts = some KeySource.MicrosoftStorage
      ∧ (resourceArmStorageAccountEncryptionSettingsCreateUpdate envOk dEmptyVaultId).trace.head?
          = some (.update "G" "acct1" defaultUpdateOpts)
      ∧ containsVaultUriLookup
          (resourceArmStorageAccountEncryptionSettingsCreateUpdate envOk dEmptyVaultId).trace
            = false) :=
  ⟨rfl,
   emptyKeyVaultIdYieldsPlatformWrite envOk dEmptyVaultId sampleResourceID rfl rfl⟩
